import Mathlib

/-!
Verification of the skywing-backend job proxy.

The development shallowly embeds the server's token lifecycle, bulk fetch,
in-memory cache and the two read endpoints.  Network I/O is modelled by
oracle parameters (one value per upstream request a run can make); the
module-level mutable variables of the JavaScript source become an explicit
state record threaded through every operation.
-/

namespace Skywing

/-- A job record as returned by the upstream listing endpoint.  Only the
fields that participate in filtering and sorting are modelled; each is
optional, matching the JavaScript optional-chaining accesses
(`job.job_title?.`, `a.Created && b.Created`).  `Created` holds the parsed
creation timestamp in milliseconds (`new Date(x).getTime()`); `none` models a
missing, falsy or unparseable `Created` field (an unparseable date makes the
comparator return `NaN`, which the sort treats as `0`, the same as the
missing-field branch).  `zip_code` holds the stringified value
(`job.zip_code?.toString()`). -/
structure Job where
  job_title : Option String := none
  client : Option String := none
  skills : Option String := none
  city : Option String := none
  country : Option String := none
  zip_code : Option String := none
  Created : Option Nat := none
  deriving Repr, DecidableEq

/-- Helper for substring containment: does `hay` start with `needle`? -/
def charsStartWith : List Char → List Char → Bool
  | [], _ => true
  | _ :: _, [] => false
  | a :: as, b :: bs => (a == b) && charsStartWith as bs

/-- Helper for substring containment: does `needle` occur contiguously in
`hay`? -/
def charsContain (hay needle : List Char) : Bool :=
  match hay with
  | [] => needle.isEmpty
  | _ :: rest => charsStartWith needle hay || charsContain rest needle

/-- JavaScript `hay.includes(needle)` on strings: substring containment. -/
def strIncludes (hay needle : String) : Bool :=
  charsContain hay.data needle.data

/-- JavaScript `s.toLowerCase()`, modelled character-wise over the string's
character list (ASCII case mapping, which covers the job data involved). -/
def jsToLower (s : String) : String :=
  String.mk (s.data.map Char.toLower)

/-- JavaScript truthiness of an optional string: `null` and `""` are falsy. -/
def jsStrTruthy : Option String → Bool
  | none => false
  | some s => !s.isEmpty

/-- JavaScript truthiness of an optional number: `null` and `0` are falsy. -/
def jsNatTruthy : Option Nat → Bool
  | none => false
  | some n => n != 0

/-- JavaScript truthiness of an optional timestamp: `null` and `0` are falsy. -/
def jsIntTruthy : Option Int → Bool
  | none => false
  | some t => t != 0

/-- JavaScript numeric coercion of a possibly-null number (`null` → `0`),
as used by `Date.now() > accessTokenExpiry` when the expiry is `null`. -/
def jsNum : Option Int → Int
  | none => 0
  | some t => t

/-- The comparator passed to `allJobs.sort`:
`(a, b) => { if (a.Created && b.Created) return new Date(b.Created).getTime()
- new Date(a.Created).getTime(); return 0; }`. -/
def jsCompare (a b : Job) : Int :=
  match a.Created, b.Created with
  | some ta, some tb => (tb : Int) - (ta : Int)
  | _, _ => 0

/-- Order used by the embedded sort: `a` may stay before `b` exactly when
the comparator does not demand the swap (`jsCompare a b ≤ 0`). -/
def jobLE (a b : Job) : Bool := decide (jsCompare a b ≤ 0)

/-- One step of the embedded stable sort: place `x` before the first element
it need not follow. -/
def insertJob (x : Job) : List Job → List Job
  | [] => [x]
  | y :: ys => if jobLE x y then x :: y :: ys else y :: insertJob x ys

/-- Embedding of `allJobs.sort(comparator)`.  `Array.prototype.sort` with a
comparator is required to be a stable sort (ES2019); it is embedded as a
stable insertion sort over `jobLE`. -/
def sortJobs : List Job → List Job
  | [] => []
  | x :: xs => insertJob x (sortJobs xs)

theorem insertJob_perm (x : Job) (l : List Job) : (insertJob x l).Perm (x :: l) := by
  induction l with
  | nil => simp [insertJob]
  | cons y ys ih =>
    simp only [insertJob]
    by_cases h : jobLE x y
    · simp [h]
    · simp only [h, if_neg]
      exact ((ih.cons y).trans (List.Perm.swap x y ys)).symm.symm

theorem sortJobs_perm (l : List Job) : (sortJobs l).Perm l := by
  induction l with
  | nil => simp [sortJobs]
  | cons x xs ih =>
    exact (insertJob_perm x (sortJobs xs)).trans (ih.cons x)

/-- The module-level mutable variables of the server, gathered into one
explicit state value.  Defaults are the initial values from the source
(`totalJobCount = 313`, `totalPages = 16`, empty cache, no tokens). -/
structure St where
  accessToken : Option String := none
  refreshToken : Option String := none
  accessTokenExpiry : Option Int := none
  refreshTokenExpiry : Option Int := none
  cachedJobs : List Job := []
  totalJobCount : Nat := 313
  cacheTimestamp : Option Int := none
  totalPages : Nat := 16
  deriving Repr, DecidableEq

/-- The distinguishable error outcomes a modelled operation can throw.
`http s` is an axios error carrying `error.response.status = s`; `transport`
is a network failure without a response; `noAccessToken` is the thrown
`Error("Failed to get access_token from response")` (and the analogous
refresh-response check); `refreshExpired` is the thrown
`Error("Refresh token expired. Please authenticate again.")`. -/
inductive JsErr where
  | http (status : Nat)
  | transport
  | noAccessToken
  | refreshExpired
  deriving Repr, DecidableEq

/-- Result of a token operation: the state after its mutations, the value it
returned or the error it threw, and how many upstream requests it issued. -/
structure TokenResult where
  st : St
  res : Except JsErr String
  upstreamCalls : Nat
  deriving Repr

/-- Embedding of `getAuthTokens()`.  The oracle `auth` is the outcome of the
`createAuthtoken` request: `ok (a, r)` is a 2xx response whose body carries
`access_token = a` and `refresh_token = r`; `error e` covers both a thrown
request error and the missing-`access_token` branch.  On success all four
token variables are overwritten (`access` expires in 24 h, `refresh` in
7 d); on failure the error is rethrown and the state is untouched.  Exactly
one upstream call is made. -/
def getAuthTokens (auth : Except JsErr (String × String)) (now : Int) (st : St) :
    TokenResult :=
  match auth with
  | .ok (a, r) =>
    { st := { st with
        accessToken := some a
        refreshToken := some r
        accessTokenExpiry := some (now + 24 * 60 * 60 * 1000)
        refreshTokenExpiry := some (now + 7 * 24 * 60 * 60 * 1000) }
      res := .ok a
      upstreamCalls := 1 }
  | .error e => { st := st, res := .error e, upstreamCalls := 1 }

/-- Embedding of `refreshAccessToken()` from `src/unnamed/part_000`.  The
oracle `refreshRes` is the outcome of the `refreshToken` request (`ok tok` =
2xx with `access_token = tok`).  On success only the access token and its
expiry are updated.  On any failure this variant unconditionally falls back
to `getAuthTokens()` — it performs no refresh-token-expiry check. -/
def refreshAccessToken (refreshRes : Except JsErr String)
    (auth : Except JsErr (String × String)) (now : Int) (st : St) : TokenResult :=
  match refreshRes with
  | .ok tok =>
    { st := { st with
        accessToken := some tok
        accessTokenExpiry := some (now + 24 * 60 * 60 * 1000) }
      res := .ok tok
      upstreamCalls := 1 }
  | .error _ =>
    let g := getAuthTokens auth now st
    { g with upstreamCalls := g.upstreamCalls + 1 }

/-- Embedding of `refreshAccessToken()` from `src/server.js` (same function
name in that file; suffixed here to coexist).  On failure it checks
`Date.now() < refreshTokenExpiry`: if the refresh expiry has not elapsed it
falls back to `getAuthTokens()`, otherwise it throws the
refresh-token-expired error without any further upstream call. -/
def refreshAccessTokenSrv (refreshRes : Except JsErr String)
    (auth : Except JsErr (String × String)) (now : Int) (st : St) : TokenResult :=
  match refreshRes with
  | .ok tok =>
    { st := { st with
        accessToken := some tok
        accessTokenExpiry := some (now + 24 * 60 * 60 * 1000) }
      res := .ok tok
      upstreamCalls := 1 }
  | .error _ =>
    if now < jsNum st.refreshTokenExpiry then
      let g := getAuthTokens auth now st
      { g with upstreamCalls := g.upstreamCalls + 1 }
    else
      { st := st, res := .error .refreshExpired, upstreamCalls := 1 }

/-- The action the `ensureToken` middleware decides on. -/
inductive TokenAction where
  | doAuth
  | doRefresh
  | noop
  deriving Repr, DecidableEq

/-- The branch selected by `ensureToken`: get new tokens when either token
variable is falsy; refresh when `Date.now() > accessTokenExpiry` and
`Date.now() < refreshTokenExpiry`; get new tokens when
`Date.now() > refreshTokenExpiry`; otherwise proceed without any call. -/
def ensureTokenAction (st : St) (now : Int) : TokenAction :=
  if jsStrTruthy st.accessToken = false ∨ jsStrTruthy st.refreshToken = false then
    .doAuth
  else if jsNum st.accessTokenExpiry < now ∧ now < jsNum st.refreshTokenExpiry then
    .doRefresh
  else if jsNum st.refreshTokenExpiry < now then
    .doAuth
  else
    .noop

/-- Embedding of the `ensureToken` middleware (identical decision logic in
all three source files): dispatch on `ensureTokenAction`; the no-op branch
just calls `next()` with zero upstream requests. -/
def ensureToken (refreshRes : Except JsErr String)
    (auth : Except JsErr (String × String)) (now : Int) (st : St) : TokenResult :=
  match ensureTokenAction st now with
  | .doAuth => getAuthTokens auth now st
  | .doRefresh => refreshAccessToken refreshRes auth now st
  | .noop => { st := st, res := .ok "", upstreamCalls := 0 }

/-- The JSON body of one upstream listing response, with each field optional
so that the source's truthiness checks (`data.num_pages`, `data.count`,
`data.results`) can be modelled. -/
structure PageData where
  results : Option (List Job) := none
  num_pages : Option Nat := none
  count : Option Nat := none
  deriving Repr, DecidableEq

/-- The oracles of one `fetchAllJobsAndUpdateCache` run: `page n` is the
outcome of `GET ...?page=n` (`ok none` is a 2xx response with a falsy body);
`retryPage1` is the outcome of the second page-1 request issued after a
401/403 re-authentication; `auth` feeds that `getAuthTokens()` call; `now`
is `Date.now()`. -/
structure FetchEnv where
  page : Nat → Except JsErr (Option PageData)
  retryPage1 : Except JsErr (Option PageData)
  auth : Except JsErr (String × String)
  now : Int

/-- The records page `i ≥ 2` contributes to the fan-out.  The `.catch`
attached to each page promise turns a failed request into
`{ data: { results: [] } }`, and the combining `forEach` skips bodies whose
`data` or `data.results` is falsy, so a failed or malformed page contributes
no records. -/
def pageJobs (env : FetchEnv) (i : Nat) : List Job :=
  match env.page i with
  | .ok (some d) =>
    match d.results with
    | some rs => rs
    | none => []
  | .ok none => []
  | .error _ => []

/-- The records taken from the page-1 body (`allJobs = [...results]` guarded
by `data && data.results`). -/
def firstPageJobs (d : Option PageData) : List Job :=
  match d with
  | some dd =>
    match dd.results with
    | some rs => rs
    | none => []
  | none => []

/-- The `totalPages` variable after the page-1 body is inspected: updated
only when `data && data.num_pages` is truthy (so `0` and a missing field
leave the previous value). -/
def newTotalPages (st : St) (d : Option PageData) : Nat :=
  match d with
  | some dd => if jsNatTruthy dd.num_pages then dd.num_pages.getD st.totalPages else st.totalPages
  | none => st.totalPages

/-- The `totalJobCount` variable after the page-1 body is inspected. -/
def newTotalJobCount (st : St) (d : Option PageData) : Nat :=
  match d with
  | some dd => if jsNatTruthy dd.count then dd.count.getD st.totalJobCount else st.totalJobCount
  | none => st.totalJobCount

/-- The combined pre-sort job list: page-1 records first, then the
contributions of pages `2 .. tp` in page order (`Promise.all` returns the
responses in the order of the promise array, not in completion order). -/
def assembledJobs (env : FetchEnv) (first : List Job) (tp : Nat) : List Job :=
  first ++ (List.range' 2 (tp - 1)).flatMap (pageJobs env)

/-- The `error.response && (status === 403 || status === 401)` test of the
bulk-fetch catch block. -/
def isAuthStatus : JsErr → Bool
  | .http s => s == 403 || s == 401
  | _ => false

/-- Result of a bulk fetch: the state after its mutations, the returned job
list or rethrown error, and the number of upstream requests issued. -/
structure FetchResult where
  st : St
  res : Except JsErr (List Job)
  upstreamCalls : Nat
  deriving Repr

/-- Embedding of `fetchAllJobsAndUpdateCache()` from `src/unnamed/part_000`.
Happy path: request page 1, update `totalPages`/`totalJobCount` from its
body, fan out pages `2 .. totalPages` (each with its error-to-empty catch),
concatenate in page order, sort, and publish `cachedJobs`/`cacheTimestamp`.
Catch path: if page 1 threw a 401/403, run `getAuthTokens()` and retry page
1 once; a retry body with truthy `results` is published as the new cache
(raw, unsorted, no `totalPages` update) and returned; otherwise the original
error is rethrown (or the auth error, if re-authentication itself threw).
Errors never touch `cachedJobs`/`cacheTimestamp`. -/
def fetchAllJobsAndUpdateCache (env : FetchEnv) (st : St) : FetchResult :=
  match env.page 1 with
  | .ok d =>
    let tp := newTotalPages st d
    let allJobs := sortJobs (assembledJobs env (firstPageJobs d) tp)
    { st := { st with
        totalPages := tp
        totalJobCount := newTotalJobCount st d
        cachedJobs := allJobs
        cacheTimestamp := some env.now }
      res := .ok allJobs
      upstreamCalls := 1 + (tp - 1) }
  | .error e =>
    if isAuthStatus e then
      let g := getAuthTokens env.auth env.now st
      match g.res with
      | .ok _ =>
        match env.retryPage1 with
        | .ok (some d) =>
          match d.results with
          | some rs =>
            { st := { g.st with cachedJobs := rs, cacheTimestamp := some env.now }
              res := .ok rs
              upstreamCalls := 3 }
          | none => { st := g.st, res := .error e, upstreamCalls := 3 }
        | .ok none => { st := g.st, res := .error e, upstreamCalls := 3 }
        | .error _ => { st := g.st, res := .error e, upstreamCalls := 3 }
      | .error e2 => { st := g.st, res := .error e2, upstreamCalls := 2 }
    else
      { st := st, res := .error e, upstreamCalls := 1 }

/-- Embedding of the 25-minute `setInterval` cache-refresh callback: run the
bulk fetch and swallow (log) any error, keeping whatever state the run left
behind. -/
def scheduledCacheRefresh (env : FetchEnv) (st : St) : St :=
  (fetchAllJobsAndUpdateCache env st).st

/-- Operational model of `Promise.all` over the page fan-out: the `k`
promises settle in the order given by `arrival` (a permutation of
`0 .. k-1`); each settlement stores its value in its own slot of the result
array.  The slot for index `j` receives `f j` no matter when it settles. -/
def promiseAllSlots (k : Nat) (f : Nat → List Job) (arrival : List Nat) :
    List (Option (List Job)) :=
  arrival.foldl (fun acc j => acc.set j (some (f j))) (List.replicate k none)

/-- The bulk-fetch assembly with the settlement order of pages
`2 .. tp` made explicit: collect the fan-out through `promiseAllSlots`, then
concatenate the slots in array order behind the page-1 records, exactly as
the combining `forEach` does. -/
def assembledJobsWithArrival (env : FetchEnv) (first : List Job) (tp : Nat)
    (arrival : List Nat) : List Job :=
  first ++
    (promiseAllSlots (tp - 1) (fun j => pageJobs env (j + 2)) arrival).flatMap
      (fun s => s.getD [])

/-- The cache-validity test appearing in both handlers:
`cachedJobs.length > 0 && cacheTimestamp && Date.now() - cacheTimestamp <
CACHE_DURATION` with `CACHE_DURATION = 30 * 60 * 1000`. -/
def CACHE_DURATION : Int := 30 * 60 * 1000

/-- Embedding of the `isCacheValid` expression. -/
def isCacheValid (st : St) (now : Int) : Bool :=
  decide (st.cachedJobs.length > 0) && jsIntTruthy st.cacheTimestamp &&
    decide (now - jsNum st.cacheTimestamp < CACHE_DURATION)

/-- The cache-or-refresh step shared by the `/api/jobs` and
`/api/searchjobs` handlers: serve `cachedJobs` with zero upstream calls when
`isCacheValid`, otherwise run the bulk fetch.  (The handlers' single-page
fallbacks on a failed bulk fetch sit after this step and are separate
paths.) -/
def readJobs (env : FetchEnv) (now : Int) (st : St) : FetchResult :=
  if isCacheValid st now then
    { st := st, res := .ok st.cachedJobs, upstreamCalls := 0 }
  else
    fetchAllJobsAndUpdateCache env st

/-- The response shape of the `/api/jobs` handler.  `next`/`previous` model
the presence of the page links (the link text itself is request plumbing). -/
structure PageResponse where
  count : Nat
  num_pages : Nat
  limit : Nat
  page_number : Nat
  page_count : Nat
  next : Bool
  previous : Bool
  results : List Job
  deriving Repr, DecidableEq

/-- Embedding of the pagination step of the `/api/jobs` handler applied to
the obtained job list: fixed `limit = 20`,
`paginatedJobs = allJobs.slice((page-1)*20, page*20)`,
`totalPages = Math.ceil(allJobs.length / 20)`, `next` present iff
`page < totalPages`, `previous` present iff `page > 1`. -/
def listPage (allJobs : List Job) (page : Nat) : PageResponse :=
  let limit := 20
  let startIndex := (page - 1) * limit
  let endIndex := page * limit
  let paginatedJobs := (allJobs.drop startIndex).take (endIndex - startIndex)
  let totalPages := (allJobs.length + limit - 1) / limit
  { count := allJobs.length
    num_pages := totalPages
    limit := limit
    page_number := page
    page_count := paginatedJobs.length
    next := decide (page < totalPages)
    previous := decide (page > 1)
    results := paginatedJobs }

/-- The text filter of the `/api/searchjobs` handler, with `term` already
lowercased (`query.toLowerCase()`): any of `job_title`, `client`, `skills`
lowercased contains the term; a missing field short-circuits to the next
one. -/
def textMatches (term : String) (j : Job) : Bool :=
  (match j.job_title with
   | some s => strIncludes (jsToLower s) term
   | none => false) ||
  (match j.client with
   | some s => strIncludes (jsToLower s) term
   | none => false) ||
  (match j.skills with
   | some s => strIncludes (jsToLower s) term
   | none => false)

/-- The location filter of the `/api/searchjobs` handler, with `term`
already lowercased (`location.toLowerCase()`): lowercased `city` or
`country` contains the term, or the stringified `zip_code` — which the
source does NOT lowercase — contains the term as-is. -/
def locationMatches (term : String) (j : Job) : Bool :=
  (match j.city with
   | some s => strIncludes (jsToLower s) term
   | none => false) ||
  (match j.country with
   | some s => strIncludes (jsToLower s) term
   | none => false) ||
  (match j.zip_code with
   | some s => strIncludes s term
   | none => false)

/-- The location filter as worded by the spec for claim C6 (comparison
definition, not taken from the source): any of city, country, or zip code as
a string CASE-INSENSITIVELY contains the location. -/
def specLocationFilter (loc : String) (j : Job) : Bool :=
  (match j.city with
   | some s => strIncludes (jsToLower s) (jsToLower loc)
   | none => false) ||
  (match j.country with
   | some s => strIncludes (jsToLower s) (jsToLower loc)
   | none => false) ||
  (match j.zip_code with
   | some s => strIncludes (jsToLower s) (jsToLower loc)
   | none => false)

/-- The response shape of the `/api/searchjobs` handler; `next` is the JSON
value `true` or `null`, `previous` always `null`. -/
structure SearchResponse where
  count : Nat
  total_count : Nat
  results : List Job
  next : Option Bool
  previous : Option Bool
  num_pages : Nat
  page_number : Nat
  deriving Repr, DecidableEq

/-- Embedding of the filtering tail of the `/api/searchjobs` handler, given
the obtained job list: apply the text filter when `query` is truthy, then
the location filter when `location` is truthy, truncate to `limit`
(`slice(0, limit)`), and report `count` = full filtered length, `next` =
`true` when truncation happened else `null`, `num_pages` =
`Math.ceil(count / 20)`. -/
def searchJobs (allJobs : List Job) (query location : Option String)
    (limit : Nat) (totalJobCount : Nat) : SearchResponse :=
  let f1 := if jsStrTruthy query then
      allJobs.filter (textMatches ((jsToLower (query.getD ""))))
    else allJobs
  let filteredJobs := if jsStrTruthy location then
      f1.filter (locationMatches ((jsToLower (location.getD ""))))
    else f1
  let limitedResults := filteredJobs.take limit
  { count := filteredJobs.length
    total_count := totalJobCount
    results := limitedResults
    next := if limitedResults.length < filteredJobs.length then some true else none
    previous := none
    num_pages := (filteredJobs.length + 20 - 1) / 20
    page_number := 1 }

theorem ensureTokenAction_noCred (st : St) (now : Int)
    (h : jsStrTruthy st.accessToken = false ∨ jsStrTruthy st.refreshToken = false) :
    ensureTokenAction st now = .doAuth := by
  simp only [ensureTokenAction]
  rw [if_pos h]

theorem ensureTokenAction_refresh (st : St) (now : Int)
    (ha : jsStrTruthy st.accessToken = true) (hr : jsStrTruthy st.refreshToken = true)
    (h1 : jsNum st.accessTokenExpiry < now) (h2 : now < jsNum st.refreshTokenExpiry) :
    ensureTokenAction st now = .doRefresh := by
  simp only [ensureTokenAction]
  rw [if_neg (by simp [ha, hr]), if_pos ⟨h1, h2⟩]

theorem ensureTokenAction_refreshExpired (st : St) (now : Int)
    (ha : jsStrTruthy st.accessToken = true) (hr : jsStrTruthy st.refreshToken = true)
    (h3 : jsNum st.refreshTokenExpiry < now) :
    ensureTokenAction st now = .doAuth := by
  simp only [ensureTokenAction]
  rw [if_neg (by simp [ha, hr]), if_neg (by omega), if_pos h3]

theorem ensureTokenAction_valid (st : St) (now : Int)
    (ha : jsStrTruthy st.accessToken = true) (hr : jsStrTruthy st.refreshToken = true)
    (h1 : now ≤ jsNum st.accessTokenExpiry) (h2 : now ≤ jsNum st.refreshTokenExpiry) :
    ensureTokenAction st now = .noop := by
  simp only [ensureTokenAction]
  rw [if_neg (by simp [ha, hr]), if_neg (by omega), if_neg (by omega)]

/-- Claim C4: `ensureToken` follows the decision table for every credential
state — no credential held: authenticate; access token expired and refresh
token not expired: refresh; refresh token expired: authenticate; valid
access token: no upstream call, and a second immediately successive call
also performs zero upstream calls.  (The table is ordered: the
refresh-expired row precedes the valid-access row, matching the source's
`else if` chain.) -/
theorem ensureToken_decision_table (refreshRes : Except JsErr String)
    (auth : Except JsErr (String × String)) (now : Int) (st : St) :
    ((jsStrTruthy st.accessToken = false ∨ jsStrTruthy st.refreshToken = false) →
      ensureToken refreshRes auth now st = getAuthTokens auth now st) ∧
    (jsStrTruthy st.accessToken = true → jsStrTruthy st.refreshToken = true →
      jsNum st.accessTokenExpiry < now → now < jsNum st.refreshTokenExpiry →
      ensureToken refreshRes auth now st = refreshAccessToken refreshRes auth now st) ∧
    (jsStrTruthy st.accessToken = true → jsStrTruthy st.refreshToken = true →
      jsNum st.refreshTokenExpiry < now →
      ensureToken refreshRes auth now st = getAuthTokens auth now st) ∧
    (jsStrTruthy st.accessToken = true → jsStrTruthy st.refreshToken = true →
      now ≤ jsNum st.accessTokenExpiry → now ≤ jsNum st.refreshTokenExpiry →
      ensureToken refreshRes auth now st =
        { st := st, res := .ok "", upstreamCalls := 0 } ∧
      ensureToken refreshRes auth now (ensureToken refreshRes auth now st).st =
        { st := st, res := .ok "", upstreamCalls := 0 }) := by
  refine ⟨fun h => ?_, fun ha hr h1 h2 => ?_, fun ha hr h3 => ?_, fun ha hr h1 h2 => ?_⟩
  · simp only [ensureToken, ensureTokenAction_noCred st now h]
  · simp only [ensureToken, ensureTokenAction_refresh st now ha hr h1 h2]
  · simp only [ensureToken, ensureTokenAction_refreshExpired st now ha hr h3]
  · have hfirst : ensureToken refreshRes auth now st =
        { st := st, res := .ok "", upstreamCalls := 0 } := by
      simp only [ensureToken, ensureTokenAction_valid st now ha hr h1 h2]
    refine ⟨hfirst, ?_⟩
    rw [hfirst]
    simp only [ensureToken, ensureTokenAction_valid st now ha hr h1 h2]

/-- Witness for C4: with a still-valid credential pair, the call is a no-op
and a second immediately successive call makes zero upstream requests. -/
theorem ensureToken_decision_table_witness :
    ensureToken (Except.error .transport) (Except.ok ("x", "y")) 50
      { accessToken := some "a", refreshToken := some "r",
        accessTokenExpiry := some 100, refreshTokenExpiry := some 200 } =
      { st := { accessToken := some "a", refreshToken := some "r",
                accessTokenExpiry := some 100, refreshTokenExpiry := some 200 }
        res := .ok "", upstreamCalls := 0 } :=
  ((ensureToken_decision_table (Except.error .transport) (Except.ok ("x", "y")) 50
      { accessToken := some "a", refreshToken := some "r",
        accessTokenExpiry := some 100, refreshTokenExpiry := some 200 }).2.2.2
    (by decide) (by decide) (by decide) (by decide)).1

/-- Counterexample to claim C5: in `src/unnamed/part_000`, when the refresh
request fails and the refresh token's expiry HAS elapsed (now = 200, expiry
= 100), `refreshAccessToken` does not fail with the refresh-token-expired
error — it authenticates (a second upstream call) and succeeds with the new
token. -/
theorem refreshAccessToken_expired_still_authenticates :
    (refreshAccessToken (Except.error (.http 500)) (Except.ok ("A", "R")) 200
        { refreshTokenExpiry := some 100 }).res = .ok "A" ∧
    (refreshAccessToken (Except.error (.http 500)) (Except.ok ("A", "R")) 200
        { refreshTokenExpiry := some 100 }).upstreamCalls = 2 ∧
    ¬(200 < jsNum (St.refreshTokenExpiry { refreshTokenExpiry := some 100 })) :=
  ⟨rfl, rfl, by decide⟩

/-- Claim C5 (amended): the claimed behaviour is that of `server.js`'s
`refreshAccessToken` — on upstream failure it authenticates when the refresh
expiry has not elapsed and otherwise throws the refresh-token-expired error
with no authentication attempt; the `part_000` variant instead falls back to
authentication unconditionally. -/
theorem refreshAccessToken_failure_policy (e : JsErr)
    (auth : Except JsErr (String × String)) (now : Int) (st : St) :
    (now < jsNum st.refreshTokenExpiry →
      refreshAccessTokenSrv (Except.error e) auth now st =
        { getAuthTokens auth now st with upstreamCalls := 2 }) ∧
    (¬ now < jsNum st.refreshTokenExpiry →
      refreshAccessTokenSrv (Except.error e) auth now st =
        { st := st, res := .error .refreshExpired, upstreamCalls := 1 }) ∧
    refreshAccessToken (Except.error e) auth now st =
      { getAuthTokens auth now st with upstreamCalls := 2 } := by
  refine ⟨fun h => ?_, fun h => ?_, ?_⟩
  · simp only [refreshAccessTokenSrv, if_pos h]
    cases auth with
    | ok p => rfl
    | error e2 => rfl
  · simp only [refreshAccessTokenSrv, if_neg h]
  · simp only [refreshAccessToken]
    cases auth with
    | ok p => rfl
    | error e2 => rfl

/-- Witness for the amended C5: with the refresh expiry elapsed, the
`server.js` variant throws the refresh-token-expired error after exactly the
one failed refresh call. -/
theorem refreshAccessToken_failure_policy_witness :
    refreshAccessTokenSrv (Except.error .transport) (Except.ok ("A", "R")) 200
        { refreshTokenExpiry := some 100 } =
      { st := { refreshTokenExpiry := some 100 }
        res := .error .refreshExpired, upstreamCalls := 1 } :=
  (refreshAccessToken_failure_policy .transport (Except.ok ("A", "R")) 200
      { refreshTokenExpiry := some 100 }).2.1 (by decide)

/-- Claim C7: for every page number `p ≥ 1`, `listPage` returns exactly the
contiguous slice `[(p-1)*20, p*20)` of the snapshot (hence at most 20
records), `count` = snapshot size, `num_pages` = the ceiling of
`count / 20` (witnessed by the two bounding conjuncts), `page_count` = slice
length, `next`/`previous` present exactly when a following/preceding page
exists, and a page beyond `num_pages` yields an empty slice rather than an
error. -/
theorem listPage_spec (allJobs : List Job) (page : Nat) (hp : 1 ≤ page) :
    (listPage allJobs page).results = (allJobs.drop ((page - 1) * 20)).take 20 ∧
    (listPage allJobs page).results.length ≤ 20 ∧
    (listPage allJobs page).count = allJobs.length ∧
    (listPage allJobs page).num_pages = (allJobs.length + 19) / 20 ∧
    allJobs.length ≤ (listPage allJobs page).num_pages * 20 ∧
    (listPage allJobs page).num_pages * 20 < allJobs.length + 20 ∧
    (listPage allJobs page).page_number = page ∧
    (listPage allJobs page).page_count = (listPage allJobs page).results.length ∧
    ((listPage allJobs page).next = true ↔ page < (listPage allJobs page).num_pages) ∧
    ((listPage allJobs page).previous = true ↔ 1 < page) ∧
    ((listPage allJobs page).num_pages < page → (listPage allJobs page).results = []) := by
  have h20 : page * 20 - (page - 1) * 20 = 20 := by omega
  have hres : (listPage allJobs page).results =
      (allJobs.drop ((page - 1) * 20)).take 20 := by
    simp only [listPage, h20]
  have hnum : (listPage allJobs page).num_pages = (allJobs.length + 19) / 20 := by
    simp only [listPage]
    omega
  refine ⟨hres, ?_, rfl, hnum, ?_, ?_, rfl, rfl, ?_, ?_, ?_⟩
  · rw [hres]
    simp [List.length_take]
  · rw [hnum]; omega
  · rw [hnum]; omega
  · simp only [listPage, decide_eq_true_eq]
  · simp only [listPage, decide_eq_true_eq]
  · intro hbeyond
    rw [hnum] at hbeyond
    have hlen : allJobs.length ≤ (page - 1) * 20 := by omega
    rw [hres, List.drop_eq_nil_of_le hlen, List.take_nil]

/-- Witness for C7: a request far beyond the last page yields the empty
slice and no error. -/
theorem listPage_spec_witness : (listPage [] 5).results = [] :=
  (listPage_spec [] 5 (by decide)).2.2.2.2.2.2.2.2.2.2 (by decide)

/-- Counterexample to claim C8: a state holding a snapshot captured just now
(`cacheTimestamp = some 1`, read at `now = 1`, well inside the 30-minute
TTL) whose record list is empty is NOT valid, and a read in that state
performs an upstream call instead of returning the cached snapshot — cache
validity is not "exactly snapshot-exists and fresh". -/
theorem cache_empty_fresh_not_valid :
    isCacheValid { cacheTimestamp := some 1 } 1 = false ∧
    St.cacheTimestamp { cacheTimestamp := some 1 } = some 1 ∧
    ((1 : Int) - 1 < CACHE_DURATION) ∧
    (readJobs { page := fun _ => Except.error .transport,
                retryPage1 := Except.error .transport,
                auth := Except.error .transport, now := 1 } 1
        { cacheTimestamp := some 1 }).upstreamCalls = 1 := by
  refine ⟨?_, ?_, ?_, ?_⟩
  · rfl
  · rfl
  · decide
  · rfl

/-- Claim C8 (amended): cache validity holds exactly when the snapshot list
is non-empty, a (non-zero) capture timestamp exists, and `now - captured_at`
is strictly below the 30-minute TTL; given such a valid snapshot, two
immediately successive reads both return the identical snapshot and perform
zero upstream calls. -/
theorem cache_read_idempotent_within_ttl (env : FetchEnv) (now : Int) (st : St) :
    (isCacheValid st now = true ↔
      st.cachedJobs ≠ [] ∧
        ∃ t, st.cacheTimestamp = some t ∧ t ≠ 0 ∧ now - t < CACHE_DURATION) ∧
    (isCacheValid st now = true →
      readJobs env now st = { st := st, res := .ok st.cachedJobs, upstreamCalls := 0 } ∧
      readJobs env now (readJobs env now st).st =
        { st := st, res := .ok st.cachedJobs, upstreamCalls := 0 }) := by
  constructor
  · cases h : st.cacheTimestamp with
    | none => simp [isCacheValid, jsIntTruthy, h]
    | some t =>
      simp [isCacheValid, jsIntTruthy, jsNum, h, List.length_pos, bne_iff_ne]
      tauto
  · intro hv
    have hfirst : readJobs env now st =
        { st := st, res := .ok st.cachedJobs, upstreamCalls := 0 } := by
      simp only [readJobs, hv, if_pos]
    refine ⟨hfirst, ?_⟩
    rw [hfirst]
    simp only [readJobs, hv, if_pos]

/-- Witness for the amended C8: a one-record snapshot captured at time 1 and
read twice at time 1 is served from cache both times with zero upstream
calls. -/
theorem cache_read_idempotent_within_ttl_witness :
    readJobs { page := fun _ => Except.error .transport,
               retryPage1 := Except.error .transport,
               auth := Except.error .transport, now := 1 } 1
        { cachedJobs := [{ job_title := some "t" }], cacheTimestamp := some 1 } =
      { st := { cachedJobs := [{ job_title := some "t" }], cacheTimestamp := some 1 }
        res := .ok [{ job_title := some "t" }], upstreamCalls := 0 } :=
  ((cache_read_idempotent_within_ttl
      { page := fun _ => Except.error .transport,
        retryPage1 := Except.error .transport,
        auth := Except.error .transport, now := 1 } 1
      { cachedJobs := [{ job_title := some "t" }], cacheTimestamp := some 1 }).2
    (by decide)).1

theorem fetchAll_upstreamCalls_pos (env : FetchEnv) (st : St) :
    1 ≤ (fetchAllJobsAndUpdateCache env st).upstreamCalls := by
  simp only [fetchAllJobsAndUpdateCache]
  cases henv : env.page 1 with
  | ok d => simp
  | error e =>
    by_cases hA : isAuthStatus e = true
    · simp only [hA, if_pos]
      cases hg : (getAuthTokens env.auth env.now st).res with
      | ok tok =>
        cases hr : env.retryPage1 with
        | ok dd =>
          cases dd with
          | none => simp
          | some d2 => cases hres : d2.results <;> simp [hres]
        | error e3 => simp
      | error e2 => simp
    · simp only [Bool.not_eq_true] at hA
      simp [hA]

theorem fetchAll_res_ok_cachedJobs (env : FetchEnv) (st : St) (l : List Job)
    (h : (fetchAllJobsAndUpdateCache env st).res = .ok l) :
    (fetchAllJobsAndUpdateCache env st).st.cachedJobs = l := by
  revert h
  simp only [fetchAllJobsAndUpdateCache]
  cases henv : env.page 1 with
  | ok d =>
    intro h
    simp at h ⊢
    exact h
  | error e =>
    by_cases hA : isAuthStatus e = true
    · simp only [hA, if_true]
      cases hg : (getAuthTokens env.auth env.now st).res with
      | ok tok =>
        cases hr : env.retryPage1 with
        | ok dd =>
          cases dd with
          | none =>
            intro h
            simp at h
          | some d2 =>
            cases hres : d2.results with
            | none =>
              intro h
              simp [hres] at h
            | some rs =>
              intro h
              simp [hres] at h ⊢
              exact h
        | error e3 =>
          intro h
          simp at h
      | error e2 =>
        intro h
        simp at h
    · simp only [Bool.not_eq_true] at hA
      simp [hA]

/-- Claim C10: cache validity requires a non-empty snapshot — with
`cachedJobs = []` the cache is invalid regardless of its timestamp, a read
falls through to the bulk fetch (at least one upstream call), and a bulk
fetch that succeeds with zero records publishes a state whose cache is
again invalid at every later read time. -/
theorem emptyCache_never_valid (env : FetchEnv) (now : Int) (st : St)
    (h : st.cachedJobs = []) :
    isCacheValid st now = false ∧
    readJobs env now st = fetchAllJobsAndUpdateCache env st ∧
    1 ≤ (readJobs env now st).upstreamCalls ∧
    (∀ now2 : Int, (fetchAllJobsAndUpdateCache env st).res = .ok [] →
      isCacheValid (fetchAllJobsAndUpdateCache env st).st now2 = false) := by
  have hinv : isCacheValid st now = false := by
    simp [isCacheValid, h]
  have hread : readJobs env now st = fetchAllJobsAndUpdateCache env st := by
    simp [readJobs, hinv]
  refine ⟨hinv, hread, ?_, ?_⟩
  · rw [hread]; exact fetchAll_upstreamCalls_pos env st
  · intro now2 hok
    have hc := fetchAll_res_ok_cachedJobs env st [] hok
    simp [isCacheValid, hc]

/-- Witness for C10: from the initial state (empty cache), a read makes an
upstream call. -/
theorem emptyCache_never_valid_witness :
    isCacheValid {} 0 = false :=
  (emptyCache_never_valid
      { page := fun _ => Except.error .transport,
        retryPage1 := Except.error .transport,
        auth := Except.error .transport, now := 0 } 0 {} rfl).1

/-- Counterexample to claim C6: a record whose only location datum is the
zip code string "1A" case-insensitively contains the location query "A"
(the spec's filter accepts it), yet the handler returns it in no result and
does not count it — the zip-code comparison in the source checks the
lowercased query against the raw, un-lowercased zip string. -/
theorem search_zip_not_case_insensitive :
    (searchJobs [{ zip_code := some "1A" }] none (some "A") 100 313).count = 0 ∧
    (searchJobs [{ zip_code := some "1A" }] none (some "A") 100 313).results = [] ∧
    specLocationFilter "A" { zip_code := some "1A" } = true := by
  refine ⟨?_, ?_, ?_⟩ <;> decide

/-- Claim C6 (amended): for every search with at least one filter supplied,
every returned record passes each supplied filter (text: any of title,
client, skills lowercased contains the lowercased query; location: any of
city or country lowercased — or the raw zip string, case-sensitively —
contains the lowercased location), the results list has length at most
`limit`, `count` equals the length of the conjunction-filtered list, and
`next` is the boolean `true` exactly when truncation to `limit` occurred
(else `null`). -/
theorem search_filter_spec (allJobs : List Job) (query location : Option String)
    (limit totalJobCount : Nat)
    (_hone : jsStrTruthy query = true ∨ jsStrTruthy location = true) :
    (searchJobs allJobs query location limit totalJobCount).results.length ≤ limit ∧
    (∀ j ∈ (searchJobs allJobs query location limit totalJobCount).results,
      (jsStrTruthy query = true → textMatches ((jsToLower (query.getD ""))) j = true) ∧
      (jsStrTruthy location = true →
        locationMatches ((jsToLower (location.getD ""))) j = true)) ∧
    (searchJobs allJobs query location limit totalJobCount).count =
      (allJobs.filter (fun j =>
        (!jsStrTruthy query || textMatches ((jsToLower (query.getD ""))) j) &&
        (!jsStrTruthy location || locationMatches ((jsToLower (location.getD ""))) j))).length ∧
    ((searchJobs allJobs query location limit totalJobCount).next = some true ↔
      (searchJobs allJobs query location limit totalJobCount).results.length <
        (searchJobs allJobs query location limit totalJobCount).count) := by
  cases hq : jsStrTruthy query <;> cases hl : jsStrTruthy location <;>
    simp only [searchJobs, hq, hl, if_true, if_false, Bool.not_true, Bool.not_false,
      Bool.false_or, Bool.true_or, Bool.and_true, Bool.true_and] <;>
    refine ⟨List.length_take_le _ _, fun j hj => ⟨?_, ?_⟩, ?_, ?_⟩
  · simp
  · simp
  · simp [List.filter_true]
  · by_cases hlt : (List.take limit allJobs).length < allJobs.length <;> simp [hlt]
  · simp
  · intro
    exact (List.mem_filter.mp (List.mem_of_mem_take hj)).2
  · rfl
  · by_cases hlt :
        (List.take limit (allJobs.filter
          (locationMatches ((jsToLower (location.getD "")))))).length <
          (allJobs.filter (locationMatches ((jsToLower (location.getD ""))))).length <;>
      simp [hlt]
  · intro
    exact (List.mem_filter.mp (List.mem_of_mem_take hj)).2
  · simp
  · rfl
  · by_cases hlt :
        (List.take limit (allJobs.filter
          (textMatches ((jsToLower (query.getD "")))))).length <
          (allJobs.filter (textMatches ((jsToLower (query.getD ""))))).length <;>
      simp [hlt]
  · intro
    exact (List.mem_filter.mp
      (List.mem_filter.mp (List.mem_of_mem_take hj)).1).2
  · intro
    exact (List.mem_filter.mp (List.mem_of_mem_take hj)).2
  · rw [List.filter_filter]
    exact congrArg List.length
      (List.filter_congr fun a _ => Bool.and_comm _ _)
  · by_cases hlt :
        (List.take limit ((allJobs.filter
            (textMatches ((jsToLower (query.getD ""))))).filter
            (locationMatches ((jsToLower (location.getD "")))))).length <
          ((allJobs.filter (textMatches ((jsToLower (query.getD ""))))).filter
            (locationMatches ((jsToLower (location.getD ""))))).length <;>
      simp [hlt]

/-- Witness for the amended C6: the spec's own scenario, a record matching
query "engineer" and location "london". -/
theorem search_filter_spec_witness :
    (searchJobs [{ job_title := some "Software Engineer", city := some "East London" }]
        (some "engineer") (some "london") 100 313).results.length ≤ 100 :=
  (search_filter_spec
      [{ job_title := some "Software Engineer", city := some "East London" }]
      (some "engineer") (some "london") 100 313 (Or.inl (by decide))).1

/-- Ordering property claimed for the published snapshot: every pair of
adjacent records that both carry timestamps is in descending creation-time
order (a pair with a missing timestamp is unconstrained). -/
def adjacentDescending (l : List Job) : Prop :=
  List.Chain' (fun a b => ∀ ta tb, a.Created = some ta → b.Created = some tb → tb ≤ ta) l

theorem jobLE_rel (x y : Job) (h : jobLE x y = true) :
    ∀ tx ty, x.Created = some tx → y.Created = some ty → ty ≤ tx := by
  intro tx ty hx hy
  simp only [jobLE, decide_eq_true_eq] at h
  simp only [jsCompare, hx, hy] at h
  omega

theorem jobLE_false (x y : Job) (h : jobLE x y = false) :
    ∃ tx ty, x.Created = some tx ∧ y.Created = some ty ∧ tx < ty := by
  simp only [jobLE, decide_eq_false_iff_not, not_le] at h
  cases hx : x.Created with
  | none => simp [jsCompare, hx] at h
  | some tx =>
    cases hy : y.Created with
    | none => simp [jsCompare, hx, hy] at h
    | some ty =>
      refine ⟨tx, ty, rfl, rfl, ?_⟩
      simp only [jsCompare, hx, hy] at h
      omega

theorem insertJob_head (x : Job) (l : List Job) :
    (insertJob x l).head? = some x ∨ (insertJob x l).head? = l.head? := by
  cases l with
  | nil => left; rfl
  | cons y ys =>
    simp only [insertJob]
    by_cases h : jobLE x y = true
    · left; simp [h]
    · right
      have hf : jobLE x y = false := by simpa using h
      simp [hf]

theorem adjacentDescending_insertJob (x : Job) (l : List Job)
    (h : adjacentDescending l) : adjacentDescending (insertJob x l) := by
  induction l with
  | nil => simp [insertJob, adjacentDescending]
  | cons y ys ih =>
    simp only [insertJob]
    by_cases hle : jobLE x y = true
    · simp only [hle, if_true]
      exact List.Chain'.cons (jobLE_rel x y hle) h
    · have hf : jobLE x y = false := by simpa using hle
      simp only [hf, Bool.false_eq_true, if_false]
      have hys : adjacentDescending ys := (List.chain'_cons'.mp h).2
      refine List.chain'_cons'.mpr ⟨?_, ih hys⟩
      intro z hz
      rcases insertJob_head x ys with hh | hh
      · rw [hh] at hz
        simp only [Option.mem_def, Option.some.injEq] at hz
        subst hz
        obtain ⟨tx, ty, hxc, hyc, hlt⟩ := jobLE_false x y hf
        intro ta tb h1 h2
        rw [hyc] at h1
        rw [hxc] at h2
        cases h1
        cases h2
        omega
      · rw [hh] at hz
        exact (List.chain'_cons'.mp h).1 z hz

theorem adjacentDescending_sortJobs (l : List Job) :
    adjacentDescending (sortJobs l) := by
  induction l with
  | nil => simp [sortJobs, adjacentDescending]
  | cons x xs ih => exact adjacentDescending_insertJob x _ ih

theorem insertJob_none (x : Job) (hx : x.Created = none) (l : List Job) :
    insertJob x l = x :: l := by
  cases l with
  | nil => rfl
  | cons y ys =>
    have hle : jobLE x y = true := by
      simp [jobLE, jsCompare, hx]
    simp [insertJob, hle]

theorem filter_isNone_insertJob (x : Job) (hx : x.Created.isNone = false)
    (l : List Job) :
    (insertJob x l).filter (fun j => j.Created.isNone) =
      l.filter (fun j => j.Created.isNone) := by
  induction l with
  | nil => simp [insertJob, List.filter_cons, hx]
  | cons y ys ih =>
    simp only [insertJob]
    by_cases hle : jobLE x y = true
    · simp [hle, List.filter_cons, hx]
    · have hf : jobLE x y = false := by simpa using hle
      simp only [hf, Bool.false_eq_true, if_false]
      simp [List.filter_cons, ih]

theorem filter_isNone_sortJobs (l : List Job) :
    (sortJobs l).filter (fun j => j.Created.isNone) =
      l.filter (fun j => j.Created.isNone) := by
  induction l with
  | nil => rfl
  | cons x xs ih =>
    simp only [sortJobs]
    cases hx : x.Created with
    | none =>
      rw [insertJob_none x hx]
      simp [List.filter_cons, hx, ih]
    | some t =>
      have hxf : x.Created.isNone = false := by simp [hx]
      rw [filter_isNone_insertJob x hxf, ih]
      simp [List.filter_cons, hxf]

/-- Claim C2: the published snapshot is the stable sort of the assembled
list under the `Created`-descending comparator — records with missing
timestamps are equal-rank for the comparator and keep their original
relative order, every pair of adjacent records that both carry timestamps
is in descending creation-time order, and the bulk fetch publishes exactly
this sorted list as the snapshot. -/
theorem snapshot_sorted_stable (env : FetchEnv) (st : St) :
    (∀ a b : Job, a.Created = none ∨ b.Created = none → jsCompare a b = 0) ∧
    (∀ l : List Job, (sortJobs l).filter (fun j => j.Created.isNone) =
      l.filter (fun j => j.Created.isNone)) ∧
    (∀ l : List Job, (sortJobs l).Perm l ∧ adjacentDescending (sortJobs l)) ∧
    (∀ d, env.page 1 = Except.ok d →
      (fetchAllJobsAndUpdateCache env st).st.cachedJobs =
        sortJobs (assembledJobs env (firstPageJobs d) (newTotalPages st d))) := by
  refine ⟨?_, filter_isNone_sortJobs, fun l => ⟨sortJobs_perm l, adjacentDescending_sortJobs l⟩, ?_⟩
  · intro a b h
    rcases h with h | h
    · cases hb : b.Created <;> simp [jsCompare, h]
    · cases ha : a.Created <;> simp [jsCompare, ha, h]
  · intro d h
    simp [fetchAllJobsAndUpdateCache, h]

/-- Witness for C2: a concrete bulk fetch whose page bodies arrive unsorted
and with a missing timestamp publishes the stably sorted snapshot. -/
theorem snapshot_sorted_stable_witness :
    (fetchAllJobsAndUpdateCache
        { page := fun n =>
            if n = 1 then
              Except.ok (some { results := some [{ Created := some 10 }], num_pages := some 2 })
            else
              Except.ok (some { results := some [{ Created := some 20 }, { client := some "c" }] })
          retryPage1 := Except.error .transport
          auth := Except.error .transport
          now := 99 } {}).st.cachedJobs =
      sortJobs (assembledJobs
        { page := fun n =>
            if n = 1 then
              Except.ok (some { results := some [{ Created := some 10 }], num_pages := some 2 })
            else
              Except.ok (some { results := some [{ Created := some 20 }, { client := some "c" }] })
          retryPage1 := Except.error .transport
          auth := Except.error .transport
          now := 99 }
        (firstPageJobs (some { results := some [{ Created := some 10 }], num_pages := some 2 }))
        (newTotalPages {} (some { results := some [{ Created := some 10 }], num_pages := some 2 }))) :=
  (snapshot_sorted_stable
      { page := fun n =>
          if n = 1 then
            Except.ok (some { results := some [{ Created := some 10 }], num_pages := some 2 })
          else
            Except.ok (some { results := some [{ Created := some 20 }, { client := some "c" }] })
        retryPage1 := Except.error .transport
        auth := Except.error .transport
        now := 99 } {}).2.2.2
    (some { results := some [{ Created := some 10 }], num_pages := some 2 }) rfl

theorem fetchAll_page1_ok (env : FetchEnv) (st : St) (d : Option PageData)
    (h : env.page 1 = Except.ok d) :
    fetchAllJobsAndUpdateCache env st =
      { st := { st with
          totalPages := newTotalPages st d
          totalJobCount := newTotalJobCount st d
          cachedJobs := sortJobs (assembledJobs env (firstPageJobs d) (newTotalPages st d))
          cacheTimestamp := some env.now }
        res := Except.ok (sortJobs (assembledJobs env (firstPageJobs d) (newTotalPages st d)))
        upstreamCalls := 1 + (newTotalPages st d - 1) } := by
  simp [fetchAllJobsAndUpdateCache, h]

/-- Claim C1: a failed page `i ≥ 2` contributes zero records; when page 1
succeeds, the bulk fetch succeeds with (a sorted permutation of) page 1's
records followed by every remaining page's contribution, and its size is the
sum of the per-page record counts (a failed page contributing 0); the bulk
fetch fails only when the page-1 request itself failed. -/
theorem fetchAll_pageFailurePolicy (env : FetchEnv) (st : St) :
    (∀ i e, env.page i = Except.error e → pageJobs env i = []) ∧
    (∀ d, env.page 1 = Except.ok d →
      (fetchAllJobsAndUpdateCache env st).res =
        Except.ok (sortJobs (assembledJobs env (firstPageJobs d) (newTotalPages st d)))) ∧
    (∀ d l, env.page 1 = Except.ok d →
      (fetchAllJobsAndUpdateCache env st).res = Except.ok l →
      l.Perm (assembledJobs env (firstPageJobs d) (newTotalPages st d)) ∧
      l.length = (firstPageJobs d).length +
        ((List.range' 2 (newTotalPages st d - 1)).map
          (fun i => (pageJobs env i).length)).sum) ∧
    (∀ e, (fetchAllJobsAndUpdateCache env st).res = Except.error e →
      ∃ e1, env.page 1 = Except.error e1) := by
  refine ⟨?_, ?_, ?_, ?_⟩
  · intro i e h
    simp [pageJobs, h]
  · intro d h
    rw [fetchAll_page1_ok env st d h]
  · intro d l h hl
    rw [fetchAll_page1_ok env st d h] at hl
    simp only [Except.ok.injEq] at hl
    subst hl
    refine ⟨sortJobs_perm _, ?_⟩
    rw [(sortJobs_perm _).length_eq]
    simp only [assembledJobs, List.length_append, List.flatMap_def,
      List.length_flatten, List.map_map]
    rfl
  · intro e h
    cases henv : env.page 1 with
    | ok d =>
      rw [fetchAll_page1_ok env st d henv] at h
      simp at h
    | error e1 => exact ⟨e1, rfl⟩

/-- Page-1 body of the C1 witness scenario: two records, `num_pages = 3`. -/
def pageOneBody : PageData :=
  { results := some [{ Created := some 5 }, { Created := some 4 }]
    num_pages := some 3
    count := some 5 }

/-- Environment of the C1 witness scenario: page 1 succeeds with
`pageOneBody`, page 2 fails transiently, page 3 returns one record. -/
def envScenario : FetchEnv :=
  { page := fun n =>
      if n = 1 then Except.ok (some pageOneBody)
      else if n = 3 then Except.ok (some { results := some [{ Created := some 9 }] })
      else Except.error .transport
    retryPage1 := Except.error .transport
    auth := Except.error .transport
    now := 11 }

/-- Witness for C1: the spec's scenario — page 1 reports `num_pages = 3` and
two records, page 2 fails transiently, page 3 returns one record; the bulk
fetch still succeeds and the snapshot size is 2 + 1. -/
theorem fetchAll_pageFailurePolicy_witness :
    ∃ l, (fetchAllJobsAndUpdateCache envScenario {}).res = Except.ok l ∧
      l.length = 2 + 1 := by
  have hok := (fetchAll_pageFailurePolicy envScenario {}).2.1 (some pageOneBody) rfl
  refine ⟨_, hok, ?_⟩
  have h := ((fetchAll_pageFailurePolicy envScenario {}).2.2.1
    (some pageOneBody) _ rfl hok).2
  rw [h]
  rfl

theorem getAuthTokens_st_cache (auth : Except JsErr (String × String))
    (now : Int) (st : St) :
    (getAuthTokens auth now st).st.cachedJobs = st.cachedJobs ∧
    (getAuthTokens auth now st).st.cacheTimestamp = st.cacheTimestamp := by
  cases auth with
  | ok p => cases p with | mk a r => exact ⟨rfl, rfl⟩
  | error e => exact ⟨rfl, rfl⟩

/-- Counterexample to claim C3: when the page-1 request of the bulk fetch
fails with a 403 and the re-authentication plus page-1 retry succeed, the
run DOES publish a new snapshot — the raw, page-1-only retry body — even
though this was not a fully successful bulk fetch (its page-1 request
failed), replacing the previously published snapshot. -/
theorem fetch_publishes_on_retry_path :
    (fetchAllJobsAndUpdateCache
        { page := fun _ => Except.error (.http 403)
          retryPage1 := Except.ok (some { results := some [{ city := some "n" }] })
          auth := Except.ok ("A", "R")
          now := 9 }
        { cachedJobs := [{ client := some "old" }], cacheTimestamp := some 7 }).st.cachedJobs =
      [{ city := some "n" }] ∧
    (fetchAllJobsAndUpdateCache
        { page := fun _ => Except.error (.http 403)
          retryPage1 := Except.ok (some { results := some [{ city := some "n" }] })
          auth := Except.ok ("A", "R")
          now := 9 }
        { cachedJobs := [{ client := some "old" }], cacheTimestamp := some 7 }).res =
      Except.ok [{ city := some "n" }] ∧
    ({ page := fun _ => Except.error (.http 403)
       retryPage1 := Except.ok (some { results := some [{ city := some "n" }] })
       auth := Except.ok ("A", "R")
       now := 9 } : FetchEnv).page 1 = Except.error (.http 403) ∧
    [({ city := some "n" } : Job)] ≠ [({ client := some "old" } : Job)] := by
  refine ⟨rfl, rfl, rfl, by decide⟩

/-- Claim C3 (amended): every failing bulk-fetch attempt — including inside
the background refresh timer, which swallows the error — leaves `cachedJobs`
and `cacheTimestamp` unchanged; a successful attempt publishes its returned
list atomically (both cache fields together), and that list is either the
fully assembled sorted list (page-1 request succeeded) or, on the
401/403-retry path, the raw page-1 retry body. -/
theorem fetch_failure_atomicity (env : FetchEnv) (st : St) :
    (∀ e, (fetchAllJobsAndUpdateCache env st).res = Except.error e →
      (fetchAllJobsAndUpdateCache env st).st.cachedJobs = st.cachedJobs ∧
      (fetchAllJobsAndUpdateCache env st).st.cacheTimestamp = st.cacheTimestamp ∧
      (scheduledCacheRefresh env st).cachedJobs = st.cachedJobs ∧
      (scheduledCacheRefresh env st).cacheTimestamp = st.cacheTimestamp) ∧
    (∀ l, (fetchAllJobsAndUpdateCache env st).res = Except.ok l →
      (fetchAllJobsAndUpdateCache env st).st.cachedJobs = l ∧
      (fetchAllJobsAndUpdateCache env st).st.cacheTimestamp = some env.now ∧
      ((∃ d, env.page 1 = Except.ok d ∧
          l = sortJobs (assembledJobs env (firstPageJobs d) (newTotalPages st d))) ∨
        (∃ e dd rs, env.page 1 = Except.error e ∧ isAuthStatus e = true ∧
          env.retryPage1 = Except.ok (some dd) ∧ dd.results = some rs ∧ l = rs))) := by
  constructor
  · intro e
    simp only [scheduledCacheRefresh]
    cases henv : env.page 1 with
    | ok d =>
      intro h
      rw [fetchAll_page1_ok env st d henv] at h
      simp at h
    | error e1 =>
      simp only [fetchAllJobsAndUpdateCache, henv]
      by_cases hA : isAuthStatus e1 = true
      · simp only [hA, if_true]
        cases hg : (getAuthTokens env.auth env.now st).res with
        | ok tok =>
          cases hr : env.retryPage1 with
          | ok dd =>
            cases dd with
            | none =>
              intro h
              exact ⟨(getAuthTokens_st_cache env.auth env.now st).1,
                (getAuthTokens_st_cache env.auth env.now st).2,
                (getAuthTokens_st_cache env.auth env.now st).1,
                (getAuthTokens_st_cache env.auth env.now st).2⟩
            | some d2 =>
              cases hres : d2.results with
              | none =>
                intro h
                simp only [hres]
                exact ⟨(getAuthTokens_st_cache env.auth env.now st).1,
                  (getAuthTokens_st_cache env.auth env.now st).2,
                  (getAuthTokens_st_cache env.auth env.now st).1,
                  (getAuthTokens_st_cache env.auth env.now st).2⟩
              | some rs =>
                intro h
                simp [hres] at h
          | error e3 =>
            intro h
            exact ⟨(getAuthTokens_st_cache env.auth env.now st).1,
              (getAuthTokens_st_cache env.auth env.now st).2,
              (getAuthTokens_st_cache env.auth env.now st).1,
              (getAuthTokens_st_cache env.auth env.now st).2⟩
        | error e2 =>
          intro h
          exact ⟨(getAuthTokens_st_cache env.auth env.now st).1,
            (getAuthTokens_st_cache env.auth env.now st).2,
            (getAuthTokens_st_cache env.auth env.now st).1,
            (getAuthTokens_st_cache env.auth env.now st).2⟩
      · simp only [Bool.not_eq_true] at hA
        simp only [hA, Bool.false_eq_true, if_false]
        intro h
        simp
  · intro l
    cases henv : env.page 1 with
    | ok d =>
      intro h
      rw [fetchAll_page1_ok env st d henv] at h ⊢
      simp only [Except.ok.injEq] at h
      exact ⟨h, rfl, Or.inl ⟨d, rfl, h.symm⟩⟩
    | error e1 =>
      simp only [fetchAllJobsAndUpdateCache, henv]
      by_cases hA : isAuthStatus e1 = true
      · simp only [hA, if_true]
        cases hg : (getAuthTokens env.auth env.now st).res with
        | ok tok =>
          cases hr : env.retryPage1 with
          | ok dd =>
            cases dd with
            | none =>
              intro h
              simp at h
            | some d2 =>
              cases hres : d2.results with
              | none =>
                intro h
                simp [hres] at h
              | some rs =>
                intro h
                simp only [hres] at h ⊢
                simp only [Except.ok.injEq] at h
                subst h
                refine ⟨?_, ?_, Or.inr ⟨e1, d2, rs, ?_, ?_, ?_, ?_, ?_⟩⟩ <;>
                  first
                  | rfl
                  | trivial
          | error e3 =>
            intro h
            simp at h
        | error e2 =>
          intro h
          simp at h
      · simp only [Bool.not_eq_true] at hA
        simp only [hA, Bool.false_eq_true, if_false]
        intro h
        simp at h

theorem set_set_comm (f : Nat → List Job) (x y : Nat)
    (acc : List (Option (List Job))) :
    (acc.set x (some (f x))).set y (some (f y)) =
      (acc.set y (some (f y))).set x (some (f x)) := by
  by_cases h : x = y
  · subst h
    rfl
  · exact List.set_comm _ _ acc h

theorem promiseAllSlots_perm (k : Nat) (f : Nat → List Job)
    (a1 a2 : List Nat) (hp : a1.Perm a2) :
    promiseAllSlots k f a1 = promiseAllSlots k f a2 := by
  unfold promiseAllSlots
  exact hp.foldl_eq' (fun x _ y _ z => set_set_comm f x y z) _

theorem foldl_set_append (f : Nat → List Job) :
    ∀ (ns : List Nat) (acc1 acc2 : List (Option (List Job))),
    (∀ m ∈ ns, m < acc1.length) →
    ns.foldl (fun a i => a.set i (some (f i))) (acc1 ++ acc2) =
      (ns.foldl (fun a i => a.set i (some (f i))) acc1) ++ acc2 := by
  intro ns
  induction ns with
  | nil => intro acc1 acc2 h; rfl
  | cons i rest ih =>
    intro acc1 acc2 h
    simp only [List.foldl_cons]
    rw [List.set_append_left _ _ (h i (by simp))]
    exact ih _ _ (fun m hm => by
      rw [List.length_set]
      exact h m (by simp [hm]))

theorem promiseAllSlots_range (k : Nat) (f : Nat → List Job) :
    promiseAllSlots k f (List.range k) =
      (List.range k).map (fun j => some (f j)) := by
  induction k with
  | zero => rfl
  | succ n ih =>
    unfold promiseAllSlots at ih ⊢
    rw [List.range_succ, List.foldl_append]
    rw [show List.replicate (n + 1) (none : Option (List Job)) =
        List.replicate n none ++ [none] from List.replicate_succ' ..]
    rw [foldl_set_append f (List.range n) _ [none]
      (fun m hm => by simpa using List.mem_range.mp hm)]
    simp only [List.foldl_cons, List.foldl_nil]
    rw [ih]
    rw [List.set_append_right _ _ (by simp)]
    simp [List.range_succ]

theorem assembledJobsWithArrival_eq (env : FetchEnv) (first : List Job)
    (tp : Nat) (arrival : List Nat) (h : arrival.Perm (List.range (tp - 1))) :
    assembledJobsWithArrival env first tp arrival = assembledJobs env first tp := by
  unfold assembledJobsWithArrival
  rw [promiseAllSlots_perm _ _ _ _ h, promiseAllSlots_range]
  unfold assembledJobs
  congr 1
  rw [List.range'_eq_map_range, List.flatMap_map, List.flatMap_map]
  simp [Nat.add_comm]

/-- Claim C9: the assembled snapshot is deterministic with respect to the
order in which the fan-out pages settle — any two settlement orders of
pages `2 .. page_count` (any two permutations of the slot indices) produce
the identical assembled list (equal even before the sort, because
`Promise.all` fills a slot per page), hence identical ordering after the
sort step. -/
theorem fetch_order_deterministic (env : FetchEnv) (first : List Job) (tp : Nat)
    (a1 a2 : List Nat) (h1 : a1.Perm (List.range (tp - 1)))
    (h2 : a2.Perm (List.range (tp - 1))) :
    assembledJobsWithArrival env first tp a1 = assembledJobsWithArrival env first tp a2 ∧
    assembledJobsWithArrival env first tp a1 = assembledJobs env first tp ∧
    sortJobs (assembledJobsWithArrival env first tp a1) =
      sortJobs (assembledJobsWithArrival env first tp a2) := by
  have e1 := assembledJobsWithArrival_eq env first tp a1 h1
  have e2 := assembledJobsWithArrival_eq env first tp a2 h2
  exact ⟨e1.trans e2.symm, e1, by rw [e1, e2]⟩

/-- Witness for C9: with three pages, the settlement orders `[1, 0]` and
`[0, 1]` of the two fanned-out pages assemble the same list. -/
theorem fetch_order_deterministic_witness :
    assembledJobsWithArrival
      { page := fun n =>
          if n = 2 then Except.ok (some { results := some [{ Created := some 1 }] })
          else Except.ok (some { results := some [{ Created := some 2 }] })
        retryPage1 := Except.error .transport
        auth := Except.error .transport
        now := 0 } [] 3 [1, 0] =
    assembledJobsWithArrival
      { page := fun n =>
          if n = 2 then Except.ok (some { results := some [{ Created := some 1 }] })
          else Except.ok (some { results := some [{ Created := some 2 }] })
        retryPage1 := Except.error .transport
        auth := Except.error .transport
        now := 0 } [] 3 [0, 1] :=
  (fetch_order_deterministic
      { page := fun n =>
          if n = 2 then Except.ok (some { results := some [{ Created := some 1 }] })
          else Except.ok (some { results := some [{ Created := some 2 }] })
        retryPage1 := Except.error .transport
        auth := Except.error .transport
        now := 0 } [] 3 [1, 0] [0, 1] (by decide) (by decide)).1

/-- Witness for the amended C3: a bulk fetch whose page-1 request fails with
a plain transport error leaves the previously published snapshot and its
timestamp untouched, also when run by the background timer. -/
theorem fetch_failure_atomicity_witness :
    (scheduledCacheRefresh
        { page := fun _ => Except.error .transport
          retryPage1 := Except.error .transport
          auth := Except.error .transport
          now := 9 }
        { cachedJobs := [{ client := some "old" }], cacheTimestamp := some 7 }).cachedJobs =
      [{ client := some "old" }] :=
  ((fetch_failure_atomicity
      { page := fun _ => Except.error .transport
        retryPage1 := Except.error .transport
        auth := Except.error .transport
        now := 9 }
      { cachedJobs := [{ client := some "old" }], cacheTimestamp := some 7 }).1
    .transport rfl).2.2.1

end Skywing
